import Mathlib

/-!
# Verification of the resume-analysis core (ATS scorer)

Shallow embedding, in Lean 4, of the pure parts of the resume-analysis
pipeline: the JD comparator (`utils/jd_comparator.py`), the skill validator
(`utils/skill_validator.py`), the location-privacy detector
(`utils/location_detector.py`), the scoring engine (`utils/scorer.py`),
the progress indicator (`utils/progress_indicator.py`) and the pipeline
orchestrator (`run_analysis` in `pages/1_ATS_Scorer.py`).

Conventions of the embedding:

* Python `float` arithmetic is modelled with `ℚ` (the values that matter are
  exactly representable decimals, so no rounding artefacts arise);
* Python strings are Lean `String`s; `str.lower()` is modelled by `pyLower`
  (character-wise lowering of the underlying character list) and the Python
  substring test `a in b` by `pyIn` (infix test on character lists);
* the opaque ML models (sentence embedder, spaCy NER) are oracles passed as
  arguments: an embedder is a raw similarity function `String → String → ℚ`
  (the code clamps its output itself), and the set of raw location mentions
  produced by the NER/regex detectors is a list argument;
* fallible stages are `Except String` values; Streamlit caching wrappers are
  identity at the level of the computed value and are not modelled.
-/

namespace ATS

/-- Model of Python `str.lower()` (character-wise lowering). -/
def pyLower (s : String) : String := ⟨s.data.map Char.toLower⟩

/-- Model of the Python substring test `needle in hay` on strings. -/
def pyIn (needle hay : String) : Bool := decide (List.IsInfix needle.data hay.data)

theorem pyLower_eq_empty_iff (s : String) : pyLower s = "" ↔ s = "" := by
  constructor
  · intro h
    have hd : s.data.map Char.toLower = ([] : List Char) := congrArg String.data h
    have hdd : s.data = [] := List.map_eq_nil_iff.mp hd
    cases s with
    | mk d => cases hdd; rfl
  · intro h; subst h; rfl

/-! ## JD comparator (`utils/jd_comparator.py`)

`identify_matched_keywords`, `identify_missing_keywords` and
`calculate_match_percentage`. Python `set(...)` over lowered keywords is
modelled by `List.dedup` of the lowered list (only membership and cardinality
of the set are ever used); Python `sorted` is `List.mergeSort`. -/

/-- The distinct lowered keywords of a keyword list (Python
`set(kw.lower() for kw in l)`). -/
def lowerSet (l : List String) : List String := (l.map pyLower).dedup

/-- Insert a string into a ≤-sorted list of strings, keeping it sorted. -/
def insertSorted (a : String) : List String → List String
  | [] => [a]
  | b :: bs => if a ≤ b then a :: b :: bs else b :: insertSorted a bs

/-- Model of Python `sorted` on lists of strings (insertion sort by the
lexicographic order on code points). -/
def pySorted (l : List String) : List String := l.foldr insertSorted []

/-- `identify_matched_keywords`: sorted list of the case-insensitive
intersection of the two keyword sets. -/
def identify_matched_keywords (resume_keywords jd_keywords : List String) :
    List String :=
  let resume_set := lowerSet resume_keywords
  let jd_set := lowerSet jd_keywords
  let matched := jd_set.filter (fun kw => resume_set.contains kw)
  pySorted matched

/-- `identify_missing_keywords`: JD keywords whose lowered form is absent from
the resume keyword set, in original JD order, truncated to `top_n`. -/
def identify_missing_keywords (resume_keywords jd_keywords : List String)
    (top_n : Nat := 15) : List String :=
  let resume_set := lowerSet resume_keywords
  let jd_set := lowerSet jd_keywords
  let missing := jd_set.filter (fun kw => !(resume_set.contains kw))
  let missing_ordered := jd_keywords.filter (fun kw => missing.contains (pyLower kw))
  missing_ordered.take top_n

/-- `calculate_match_percentage`: `0.0` when the JD keyword list is empty,
otherwise the 60/40 blend of keyword overlap and semantic similarity, scaled
to 100 and clamped to `[0, 100]`. -/
def calculate_match_percentage (resume_keywords jd_keywords : List String)
    (semantic_similarity : ℚ) : ℚ :=
  if jd_keywords = [] then 0
  else
    let keyword_overlap : ℚ :=
      (identify_matched_keywords resume_keywords jd_keywords).length /
        (jd_keywords.length : ℚ)
    let match_percentage := (keyword_overlap * 0.6 + semantic_similarity * 0.4) * 100
    min 100 (max 0 match_percentage)

theorem insertSorted_length (a : String) (l : List String) :
    (insertSorted a l).length = l.length + 1 := by
  induction l with
  | nil => rfl
  | cons b bs ih =>
    unfold insertSorted
    by_cases h : a ≤ b
    · simp [h]
    · simp [h, ih]

theorem pySorted_length (l : List String) : (pySorted l).length = l.length := by
  induction l with
  | nil => rfl
  | cons b bs ih =>
    show (insertSorted b (pySorted bs)).length = bs.length + 1
    rw [insertSorted_length, ih]

theorem matched_length_le (resume_keywords jd_keywords : List String) :
    (identify_matched_keywords resume_keywords jd_keywords).length ≤
      jd_keywords.length := by
  unfold identify_matched_keywords
  rw [pySorted_length]
  calc ((lowerSet jd_keywords).filter _).length
      ≤ (lowerSet jd_keywords).length := List.length_filter_le _ _
    _ ≤ (jd_keywords.map pyLower).length := List.Sublist.length_le (List.dedup_sublist _)
    _ = jd_keywords.length := List.length_map _ _

/-- **C1 counterexample.** With an empty JD keyword list and semantic
similarity `1/2`, `calculate_match_percentage` returns `0.0`, not the
semantic term alone `0.4 × s × 100 = 20`: the claim's empty-JD clause is
false on the code (`jd_comparator.py` line 181 returns `0.0` outright). -/
theorem claim_C1_match_percentage_empty_jd_cex :
    calculate_match_percentage ["python"] [] (1/2) = 0 ∧
    (0.4 * (1/2) * 100 : ℚ) = 20 ∧
    calculate_match_percentage ["python"] [] (1/2) ≠ 0.4 * (1/2) * 100 := by
  refine ⟨rfl, by norm_num, ?_⟩
  rw [show calculate_match_percentage ["python"] [] (1/2) = 0 from rfl]
  norm_num

/-- **C1 (amended).** For `s ∈ [0,1]`: when the JD keyword list is nonempty
the match percentage equals `100 × (0.6 × keywordOverlapRatio + 0.4 × s)`
(the `[0,100]` clamp never binds), where the ratio is the number of
case-insensitively matched keywords over the JD keyword count; when the JD
keyword list is empty the result is `0.0`. -/
theorem calculate_match_percentage_spec (resume_keywords jd_keywords : List String)
    (s : ℚ) (h0 : 0 ≤ s) (h1 : s ≤ 1) :
    (jd_keywords ≠ [] →
      calculate_match_percentage resume_keywords jd_keywords s =
        100 * (0.6 * (((identify_matched_keywords resume_keywords jd_keywords).length : ℚ) /
          (jd_keywords.length : ℚ)) + 0.4 * s)) ∧
    (jd_keywords = [] → calculate_match_percentage resume_keywords jd_keywords s = 0) := by
  constructor
  · intro hne
    unfold calculate_match_percentage
    rw [if_neg hne]
    have hlenpos : (0 : ℚ) < (jd_keywords.length : ℚ) := by
      have : 0 < jd_keywords.length := List.length_pos.mpr hne
      exact_mod_cast this
    set ratio : ℚ :=
      ((identify_matched_keywords resume_keywords jd_keywords).length : ℚ) /
        (jd_keywords.length : ℚ) with hratio
    have hr0 : 0 ≤ ratio := by
      apply div_nonneg _ (le_of_lt hlenpos)
      positivity
    have hr1 : ratio ≤ 1 := by
      rw [hratio, div_le_one hlenpos]
      exact_mod_cast matched_length_le resume_keywords jd_keywords
    have hub : (ratio * 0.6 + s * 0.4) * 100 ≤ 100 := by nlinarith
    have hlb : 0 ≤ (ratio * 0.6 + s * 0.4) * 100 := by nlinarith
    show min 100 (max 0 ((ratio * 0.6 + s * 0.4) * 100)) = 100 * (0.6 * ratio + 0.4 * s)
    rw [max_eq_right hlb, min_eq_right hub]
    ring
  · intro he
    simp [calculate_match_percentage, he]

/-- Witness for `calculate_match_percentage_spec` at a concrete input. -/
theorem calculate_match_percentage_spec_witness :
    calculate_match_percentage ["python"] ["python", "aws"] (1/2) =
      100 * (0.6 * (((identify_matched_keywords ["python"] ["python", "aws"]).length : ℚ) /
        (([("python" : String), "aws"].length : ℚ))) + 0.4 * (1/2)) :=
  (calculate_match_percentage_spec ["python"] ["python", "aws"] (1/2)
    (by norm_num) (by norm_num)).1 (by decide)

/-- **C7.** The missing-keywords list is exactly the JD keywords whose
lowered form is absent from the lowered resume keywords, in original JD
order (a sublist of the JD list, never re-sorted), truncated to `top_n`;
and on the concrete scenario (JD `["python","aws","docker"]`, resume
`["python"]`) the matched list is `["python"]`, the missing list is
`["aws","docker"]` in JD order, and the keyword overlap ratio is `1/3`. -/
theorem identify_missing_keywords_spec (resume_keywords jd_keywords : List String)
    (top_n : Nat) :
    identify_missing_keywords resume_keywords jd_keywords top_n =
      (jd_keywords.filter
        (fun kw => !((resume_keywords.map pyLower).contains (pyLower kw)))).take top_n ∧
    (identify_missing_keywords resume_keywords jd_keywords top_n).Sublist jd_keywords ∧
    (identify_missing_keywords resume_keywords jd_keywords top_n).length ≤ top_n ∧
    identify_matched_keywords ["python"] ["python", "aws", "docker"] = ["python"] ∧
    identify_missing_keywords ["python"] ["python", "aws", "docker"] 15 =
      ["aws", "docker"] ∧
    ((identify_matched_keywords ["python"] ["python", "aws", "docker"]).length : ℚ) /
      (([("python" : String), "aws", "docker"].length : ℚ)) = 1/3 := by
  have hmain :
      identify_missing_keywords resume_keywords jd_keywords top_n =
        (jd_keywords.filter
          (fun kw => !((resume_keywords.map pyLower).contains (pyLower kw)))).take top_n := by
    show ((jd_keywords.filter (fun kw =>
        ((lowerSet jd_keywords).filter
          (fun k => !((lowerSet resume_keywords).contains k))).contains (pyLower kw)))).take top_n
      = _
    congr 1
    apply List.filter_congr
    intro kw hkw
    have hmem : pyLower kw ∈ lowerSet jd_keywords := by
      unfold lowerSet
      rw [List.mem_dedup]
      exact List.mem_map_of_mem pyLower hkw
    simp only [lowerSet, List.mem_dedup] at hmem
    simp [lowerSet, List.mem_dedup, hmem, List.mem_map]
    rw [← decide_not, decide_eq_decide]
    push_neg
    rfl
  refine ⟨hmain, ?_, ?_, by decide, by decide, ?_⟩
  · rw [hmain]
    exact (List.take_sublist _ _).trans (List.filter_sublist _)
  · rw [hmain]
    exact List.length_take_le _ _
  · rw [show identify_matched_keywords ["python"] ["python", "aws", "docker"] =
      ["python"] from by decide]
    norm_num

/-! ## Skill validator (`utils/skill_validator.py`)

`exact_skill_match`, `calculate_semantic_similarity`,
`validate_skill_against_projects` and `_compute_skill_validation`. The
sentence embedder is an oracle `sim : String → String → ℚ` giving the raw
cosine similarity of two texts; the code clamps it to `[0,1]` itself. A
project dictionary may lack its `title`/`description` keys, hence `Option`
fields with the `dict.get` defaults of the source. -/

/-- A project dictionary (`title`/`description` keys may be absent). -/
structure Project where
  title : Option String
  description : Option String
deriving DecidableEq

/-- `f"{project.get('title', '')} {project.get('description', '')}"`. -/
def projectText (project : Project) : String :=
  project.title.getD "" ++ " " ++ project.description.getD ""

/-- `project.get('title', 'Untitled Project')`. -/
def projectName (project : Project) : String :=
  project.title.getD "Untitled Project"

/-- `calculate_semantic_similarity`: 0.0 for empty inputs, otherwise the raw
embedder similarity clamped to `[0,1]`. -/
def calculate_semantic_similarity (sim : String → String → ℚ)
    (skill text : String) : ℚ :=
  if skill = "" ∨ text = "" then 0
  else max 0 (min 1 (sim skill text))

/-- `exact_skill_match`: case-insensitive substring test, false when either
argument is empty. -/
def exact_skill_match (skill text : String) : Bool :=
  if skill = "" ∨ text = "" then false
  else pyIn (pyLower skill) (pyLower text)

/-- One iteration of the project loop of `validate_skill_against_projects`:
state is `(matching_projects, max_similarity)`. -/
def validateStep (sim : String → String → ℚ) (skill : String) (threshold : ℚ)
    (st : List String × ℚ) (project : Project) : List String × ℚ :=
  let project_text := projectText project
  if exact_skill_match skill project_text then
    (st.1 ++ [projectName project], 1)
  else
    let similarity := calculate_semantic_similarity sim skill project_text
    let max_similarity := max st.2 similarity
    if threshold ≤ similarity then (st.1 ++ [projectName project], max_similarity)
    else (st.1, max_similarity)

/-- The `if experience:` block of `validate_skill_against_projects`. -/
def validateExperienceStep (sim : String → String → ℚ) (skill : String)
    (experience : String) (threshold : ℚ) (st : List String × ℚ) :
    List String × ℚ :=
  if experience ≠ "" then
    if exact_skill_match skill experience then
      ((if st.1.contains "Experience Section" then st.1
        else st.1 ++ ["Experience Section"]), 1)
    else
      let similarity := calculate_semantic_similarity sim skill experience
      let max_similarity := max st.2 similarity
      if threshold ≤ similarity ∧ st.1.contains "Experience Section" = false then
        (st.1 ++ ["Experience Section"], max_similarity)
      else (st.1, max_similarity)
  else st

/-- `validate_skill_against_projects`: returns
`(is_validated, matching_projects, max_similarity)`. -/
def validate_skill_against_projects (sim : String → String → ℚ) (skill : String)
    (projects : List Project) (experience : String) (threshold : ℚ) :
    Bool × List String × ℚ :=
  let st := projects.foldl (validateStep sim skill threshold) ([], 0)
  let st := validateExperienceStep sim skill experience threshold st
  (decide (st.1 ≠ []), st.1, st.2)

/-- A skill entry of the `validated_skills` list. -/
structure ValidatedSkill where
  skill : String
  projects : List String
  similarity : ℚ
deriving DecidableEq

/-- Result dictionary of `_compute_skill_validation`; `component_status` and
`note` model the `_component_status`/`_note` keys the degraded default of
`error_handler.get_default_skill_validation_results` carries (absent, i.e.
`none`, on the computed path). -/
structure SkillValidationResult where
  validated_skills : List ValidatedSkill
  unvalidated_skills : List String
  validation_percentage : ℚ
  skill_project_mapping : List (String × List String)
  validation_score : ℚ
  component_status : Option String := none
  note : Option String := none
deriving DecidableEq

/-- One iteration of the per-skill loop of `_compute_skill_validation`:
accumulator is `(validated_skills, unvalidated_skills, skill_project_mapping)`. -/
def skillFoldStep (sim : String → String → ℚ) (projects : List Project)
    (experience : String) (threshold : ℚ)
    (acc : List ValidatedSkill × List String × List (String × List String))
    (skill : String) :
    List ValidatedSkill × List String × List (String × List String) :=
  let r := validate_skill_against_projects sim skill projects experience threshold
  if r.1 then
    (acc.1 ++ [⟨skill, r.2.1, r.2.2⟩], acc.2.1, acc.2.2 ++ [(skill, r.2.1)])
  else
    (acc.1, acc.2.1 ++ [skill], acc.2.2 ++ [(skill, [])])

/-- `_compute_skill_validation`. -/
def compute_skill_validation (sim : String → String → ℚ) (skills : List String)
    (projects : List Project) (experience : String) (threshold : ℚ) :
    SkillValidationResult :=
  if skills = [] then
    { validated_skills := [], unvalidated_skills := [], validation_percentage := 0,
      skill_project_mapping := [], validation_score := 0 }
  else
    let acc := skills.foldl (skillFoldStep sim projects experience threshold) ([], [], [])
    let validation_percentage : ℚ := (acc.1.length : ℚ) / (skills.length : ℚ)
    { validated_skills := acc.1, unvalidated_skills := acc.2.1,
      validation_percentage := validation_percentage,
      skill_project_mapping := acc.2.2,
      validation_score := validation_percentage * 15 }

theorem calculate_semantic_similarity_le_one (sim : String → String → ℚ)
    (skill text : String) : calculate_semantic_similarity sim skill text ≤ 1 := by
  unfold calculate_semantic_similarity
  split
  · norm_num
  · exact le_trans (max_le (by norm_num) (min_le_left _ _)) (by norm_num)

/-- "Good" state of the per-skill loop: some evidence was recorded and the
reported similarity is exactly 1. -/
def GoodState (st : List String × ℚ) : Prop := st.1 ≠ [] ∧ st.2 = 1

theorem validateStep_snd_le_one (sim : String → String → ℚ) (skill : String)
    (threshold : ℚ) (st : List String × ℚ) (project : Project)
    (h : st.2 ≤ 1) : (validateStep sim skill threshold st project).2 ≤ 1 := by
  simp only [validateStep]
  split
  · norm_num
  · split <;>
      exact max_le h (calculate_semantic_similarity_le_one sim skill _)

theorem validateStep_good (sim : String → String → ℚ) (skill : String)
    (threshold : ℚ) (st : List String × ℚ) (project : Project)
    (hle : st.2 ≤ 1) (h : GoodState st) :
    GoodState (validateStep sim skill threshold st project) := by
  obtain ⟨h1, h2⟩ := h
  have hmax : max st.2 (calculate_semantic_similarity sim skill (projectText project)) = 1 := by
    rw [h2]
    exact max_eq_left (calculate_semantic_similarity_le_one sim skill _)
  simp only [validateStep]
  split
  · exact ⟨by simp, rfl⟩
  · split
    · exact ⟨by simp, hmax⟩
    · exact ⟨h1, hmax⟩

theorem validateStep_establishes_good (sim : String → String → ℚ) (skill : String)
    (threshold : ℚ) (st : List String × ℚ) (project : Project)
    (h : exact_skill_match skill (projectText project) = true) :
    GoodState (validateStep sim skill threshold st project) := by
  unfold validateStep
  rw [if_pos h]
  exact ⟨by simp, rfl⟩

theorem foldl_validateStep_le_one (sim : String → String → ℚ) (skill : String)
    (threshold : ℚ) (projects : List Project) (st : List String × ℚ)
    (h : st.2 ≤ 1) :
    (projects.foldl (validateStep sim skill threshold) st).2 ≤ 1 := by
  induction projects generalizing st with
  | nil => exact h
  | cons p ps ih =>
    exact ih _ (validateStep_snd_le_one sim skill threshold st p h)

theorem foldl_validateStep_good (sim : String → String → ℚ) (skill : String)
    (threshold : ℚ) (projects : List Project) (st : List String × ℚ)
    (hle : st.2 ≤ 1) (h : GoodState st) :
    GoodState (projects.foldl (validateStep sim skill threshold) st) := by
  induction projects generalizing st with
  | nil => exact h
  | cons p ps ih =>
    exact ih _ (validateStep_snd_le_one sim skill threshold st p hle)
      (validateStep_good sim skill threshold st p hle h)

theorem foldl_validateStep_establishes_good (sim : String → String → ℚ)
    (skill : String) (threshold : ℚ) (projects : List Project)
    (st : List String × ℚ) (hle : st.2 ≤ 1) (project : Project)
    (hmem : project ∈ projects)
    (h : exact_skill_match skill (projectText project) = true) :
    GoodState (projects.foldl (validateStep sim skill threshold) st) := by
  induction projects generalizing st with
  | nil => cases hmem
  | cons p ps ih =>
    rcases List.mem_cons.mp hmem with heq | hmem'
    · rw [heq] at h
      exact foldl_validateStep_good sim skill threshold ps _
        (validateStep_snd_le_one sim skill threshold st p hle)
        (validateStep_establishes_good sim skill threshold st p h)
    · exact ih _ (validateStep_snd_le_one sim skill threshold st p hle) hmem'

theorem exact_skill_match_of_pyIn (skill text : String) (hskill : skill ≠ "")
    (h : pyIn (pyLower skill) (pyLower text) = true) :
    exact_skill_match skill text = true := by
  have htext : text ≠ "" := by
    intro he
    subst he
    have hinf : List.IsInfix (pyLower skill).data (pyLower "").data :=
      of_decide_eq_true h
    have : (pyLower skill).data = [] := by
      simpa [pyLower] using List.eq_nil_of_infix_nil hinf
    have : pyLower skill = "" := by
      cases hs : pyLower skill with
      | mk d => rw [hs] at this; simp at this; simp [this]
    exact hskill ((pyLower_eq_empty_iff skill).mp this)
  unfold exact_skill_match
  rw [if_neg (by simp [hskill, htext])]
  exact h

theorem exact_skill_match_text_ne (skill text : String)
    (h : exact_skill_match skill text = true) : text ≠ "" := by
  intro he
  subst he
  simp [exact_skill_match] at h

theorem validateExperienceStep_good (sim : String → String → ℚ) (skill : String)
    (experience : String) (threshold : ℚ) (st : List String × ℚ)
    (hle : st.2 ≤ 1) (h : GoodState st) :
    GoodState (validateExperienceStep sim skill experience threshold st) := by
  obtain ⟨h1, h2⟩ := h
  have hmax : max st.2 (calculate_semantic_similarity sim skill experience) = 1 := by
    rw [h2]
    exact max_eq_left (calculate_semantic_similarity_le_one sim skill _)
  simp only [validateExperienceStep]
  split
  · split
    · refine ⟨?_, rfl⟩
      split
      · exact h1
      · simp
    · split
      · exact ⟨by simp, hmax⟩
      · exact ⟨h1, hmax⟩
  · exact ⟨h1, h2⟩

theorem validateExperienceStep_establishes_good (sim : String → String → ℚ)
    (skill : String) (experience : String) (threshold : ℚ)
    (st : List String × ℚ)
    (h : exact_skill_match skill experience = true) :
    GoodState (validateExperienceStep sim skill experience threshold st) := by
  have hexp : experience ≠ "" := exact_skill_match_text_ne skill experience h
  simp only [validateExperienceStep]
  rw [if_pos hexp, if_pos h]
  refine ⟨?_, rfl⟩
  split
  · rename_i hc
    intro hnil
    rw [hnil] at hc
    simp at hc
  · simp

/-- **C4 counterexample.** The empty skill is (vacuously) a case-insensitive
substring of every project text, yet `validate_skill_against_projects` does
not validate it and reports similarity `0.0`, because `exact_skill_match`
rejects empty skills and `calculate_semantic_similarity` returns `0.0` for
them: the claim is false for the empty skill. -/
theorem claim_C4_verbatim_match_cex :
    pyIn (pyLower "") (pyLower (projectText (Project.mk (some "P") (some "d")))) = true ∧
    ¬ ((validate_skill_against_projects (fun _ _ => 0) ""
          [Project.mk (some "P") (some "d")] "" (0.6)).1 = true ∧
        (validate_skill_against_projects (fun _ _ => 0) ""
          [Project.mk (some "P") (some "d")] "" (0.6)).2.2 = 1) := by
  have hval : validate_skill_against_projects (fun _ _ => 0) ""
      [Project.mk (some "P") (some "d")] "" (0.6) = (false, [], 0) := by
    norm_num [validate_skill_against_projects, validateExperienceStep, validateStep,
      exact_skill_match, calculate_semantic_similarity, projectText]
  constructor
  · decide
  · rw [hval]
    simp

/-- **C4 (amended).** For every *nonempty* skill: if the skill occurs
verbatim (case-insensitive substring) in some project's title+description
text or in the experience text, the validator marks it validated and reports
its maximum similarity as exactly `1.0` (for any embedder oracle and any
threshold). -/
theorem validate_skill_verbatim_spec (sim : String → String → ℚ) (skill : String)
    (projects : List Project) (experience : String) (threshold : ℚ)
    (hskill : skill ≠ "")
    (hocc : (∃ p ∈ projects, pyIn (pyLower skill) (pyLower (projectText p)) = true) ∨
      pyIn (pyLower skill) (pyLower experience) = true) :
    (validate_skill_against_projects sim skill projects experience threshold).1 = true ∧
    (validate_skill_against_projects sim skill projects experience threshold).2.2 = 1 := by
  have hle0 : ((([] : List String), (0 : ℚ))).2 ≤ 1 := by norm_num
  have hgood : GoodState (validateExperienceStep sim skill experience threshold
      (projects.foldl (validateStep sim skill threshold) ([], 0))) := by
    rcases hocc with ⟨p, hp, hmatch⟩ | hmatch
    · have hexact := exact_skill_match_of_pyIn skill (projectText p) hskill hmatch
      exact validateExperienceStep_good sim skill experience threshold _
        (foldl_validateStep_le_one sim skill threshold projects _ hle0)
        (foldl_validateStep_establishes_good sim skill threshold projects _ hle0 p hp hexact)
    · have hexact := exact_skill_match_of_pyIn skill experience hskill hmatch
      exact validateExperienceStep_establishes_good sim skill experience threshold _ hexact
  obtain ⟨h1, h2⟩ := hgood
  unfold validate_skill_against_projects
  exact ⟨decide_eq_true h1, h2⟩

/-- Witness for `validate_skill_verbatim_spec`: the skill `"Python"` occurs
verbatim in the project text `"Chatbot Built with python and NLP"`. -/
theorem validate_skill_verbatim_spec_witness :
    (validate_skill_against_projects (fun _ _ => 0) "Python"
      [Project.mk (some "Chatbot") (some "Built with python and NLP")] "" (0.6)).1 = true ∧
    (validate_skill_against_projects (fun _ _ => 0) "Python"
      [Project.mk (some "Chatbot") (some "Built with python and NLP")] "" (0.6)).2.2 = 1 :=
  validate_skill_verbatim_spec (fun _ _ => 0) "Python"
    [Project.mk (some "Chatbot") (some "Built with python and NLP")] "" (0.6)
    (by decide)
    (Or.inl ⟨Project.mk (some "Chatbot") (some "Built with python and NLP"),
      by decide, by decide⟩)

theorem skillFoldStep_counts (sim : String → String → ℚ) (projects : List Project)
    (experience : String) (threshold : ℚ) (skills : List String)
    (acc : List ValidatedSkill × List String × List (String × List String)) :
    (skills.foldl (skillFoldStep sim projects experience threshold) acc).1.length +
      (skills.foldl (skillFoldStep sim projects experience threshold) acc).2.1.length =
      acc.1.length + acc.2.1.length + skills.length := by
  induction skills generalizing acc with
  | nil => simp
  | cons skill rest ih =>
    rw [List.foldl_cons, ih]
    simp only [skillFoldStep]
    split <;> simp <;> omega

/-- **C3.** For every embedder oracle and skill list:
`validation_score = (validatedCount / totalCount) × 15` exactly and
`validatedCount + unvalidatedCount = totalCount`; and for the empty skill
list the result is the all-zero record — a constant independent of the
embedder oracle `sim`, which is therefore never consulted. -/
theorem compute_skill_validation_spec (sim : String → String → ℚ)
    (skills : List String) (projects : List Project) (experience : String)
    (threshold : ℚ) :
    ((compute_skill_validation sim skills projects experience threshold).validation_score =
        (((compute_skill_validation sim skills projects experience
            threshold).validated_skills.length : ℚ) / (skills.length : ℚ)) * 15 ∧
      (compute_skill_validation sim skills projects experience
          threshold).validated_skills.length +
        (compute_skill_validation sim skills projects experience
          threshold).unvalidated_skills.length = skills.length) ∧
    compute_skill_validation sim [] projects experience threshold =
      { validated_skills := [], unvalidated_skills := [], validation_percentage := 0,
        skill_project_mapping := [], validation_score := 0 } := by
  refine ⟨⟨?_, ?_⟩, by simp [compute_skill_validation]⟩
  · by_cases h : skills = []
    · subst h
      simp [compute_skill_validation]
    · simp only [compute_skill_validation, if_neg h]
  · by_cases h : skills = []
    · subst h
      simp [compute_skill_validation]
    · simp only [compute_skill_validation, if_neg h]
      have := skillFoldStep_counts sim projects experience threshold skills ([], [], [])
      simpa using this

/-! ## Location privacy detector (`utils/location_detector.py`)

`determine_section`, `is_acceptable_location`, `assess_privacy_risk`,
`calculate_location_penalty` and the filtering/aggregation part of
`_perform_location_detection`. The three raw detectors (spaCy NER and the
two regexes) are external text analyzers; their unioned output
`all_locations` (text, type, character offset) is an input of the
embedding. Offsets are character positions, matching Python `str` slicing. -/

/-- A raw location mention, as produced by the NER/regex detectors. -/
structure RawLocation where
  text : String
  type : String
  start : Nat
deriving DecidableEq

/-- A location mention after its resume section has been attached. -/
structure DetectedLocation where
  text : String
  type : String
  start : Nat
  sectionCtx : String
deriving DecidableEq

/-- Substring test of a keyword in a (lowered) character window. -/
def pyInChars (needle : String) (hay : List Char) : Bool :=
  decide (List.IsInfix needle.data hay)

/-- `determine_section`: `contact_header` inside the first 200 characters,
otherwise classified from a ±200-character lowered window around the
mention. -/
def determine_section (text : String) (location_start : Nat) : String :=
  if location_start < 200 then "contact_header"
  else
    let context : List Char :=
      ((text.data.drop (location_start - 200)).take 400).map Char.toLower
    if ["experience", "work history", "employment"].any
        (fun kw => pyInChars kw context) then "experience"
    else if ["education", "academic", "university", "college"].any
        (fun kw => pyInChars kw context) then "education"
    else "other"

/-- `is_acceptable_location`: addresses and zip codes are never acceptable;
city/state/gpe mentions are acceptable exactly in the contact header. -/
def is_acceptable_location (location_text location_type sectionCtx : String) :
    Bool :=
  if location_type = "address" then false
  else if location_type = "zip" then false
  else if sectionCtx = "contact_header" ∧
      ["city", "state", "gpe"].contains location_type then true
  else false

/-- `assess_privacy_risk` over the filtered (problematic) mention list. -/
def assess_privacy_risk (detected_locations : List DetectedLocation) : String :=
  if detected_locations = [] then "none"
  else
    let has_address := detected_locations.any (fun l => l.type == "address")
    let has_zip := detected_locations.any (fun l => l.type == "zip")
    let has_multiple_locations := decide (detected_locations.length > 3)
    if has_address || has_zip then "high"
    else if has_multiple_locations then "medium"
    else "low"

/-- `calculate_location_penalty`. -/
def calculate_location_penalty (detected_locations : List DetectedLocation)
    (privacy_risk : String) : ℚ :=
  if privacy_risk = "none" then 0
  else
    let has_address := detected_locations.any (fun l => l.type == "address")
    let has_zip := detected_locations.any (fun l => l.type == "zip")
    if has_address && has_zip then 5
    else if has_address || has_zip then 4
    else if privacy_risk = "medium" then 3
    else if privacy_risk = "low" then 2
    else 0

/-- Result of `_perform_location_detection` (recommendations, which are pure
display strings, are not modelled; `component_status`/`note` model the
`_component_status`/`_note` keys of the degraded default of
`error_handler.get_default_location_results`). -/
structure LocationDetectionResult where
  location_found : Bool
  detected_locations : List DetectedLocation
  privacy_risk : String
  penalty_applied : ℚ
  component_status : Option String := none
  note : Option String := none
deriving DecidableEq

/-- `_perform_location_detection`, downstream of the raw detectors: attach
sections, filter out acceptable mentions, derive risk and penalty. -/
def perform_location_detection (text : String)
    (all_locations : List RawLocation) : LocationDetectionResult :=
  let sectioned := all_locations.map (fun l =>
    DetectedLocation.mk l.text l.type l.start (determine_section text l.start))
  let problematic := sectioned.filter (fun l =>
    !(is_acceptable_location l.text l.type l.sectionCtx))
  let privacy_risk := assess_privacy_risk problematic
  { location_found := decide (problematic.length > 0),
    detected_locations := problematic,
    privacy_risk := privacy_risk,
    penalty_applied := calculate_location_penalty problematic privacy_risk }

/-- **C2 counterexample.** A spaCy `LOC` mention ("Pacific", a city/region-like
non-address, non-zip location type) with character offset 0 lies in the
contact header, yet `is_acceptable_location` only exempts the types
`city`/`state`/`gpe`, so the mention *is* counted: it stays in the filtered
problematic set, the risk becomes `low` (not `none`) and the penalty 2
(not 0). -/
theorem claim_C2_loc_header_counted_cex :
    (perform_location_detection "Pacific Northwest based engineer"
        [RawLocation.mk "Pacific" "loc" 0]).detected_locations =
      [DetectedLocation.mk "Pacific" "loc" 0 "contact_header"] ∧
    (perform_location_detection "Pacific Northwest based engineer"
        [RawLocation.mk "Pacific" "loc" 0]).privacy_risk = "low" ∧
    (perform_location_detection "Pacific Northwest based engineer"
        [RawLocation.mk "Pacific" "loc" 0]).penalty_applied = 2 ∧
    ("loc" ≠ "address" ∧ "loc" ≠ "zip") := by
  have hdet : (perform_location_detection "Pacific Northwest based engineer"
      [RawLocation.mk "Pacific" "loc" 0]).detected_locations =
      [DetectedLocation.mk "Pacific" "loc" 0 "contact_header"] := by decide
  have hrisk : (perform_location_detection "Pacific Northwest based engineer"
      [RawLocation.mk "Pacific" "loc" 0]).privacy_risk = "low" := by decide
  have hpen : (perform_location_detection "Pacific Northwest based engineer"
      [RawLocation.mk "Pacific" "loc" 0]).penalty_applied =
      calculate_location_penalty
        (perform_location_detection "Pacific Northwest based engineer"
          [RawLocation.mk "Pacific" "loc" 0]).detected_locations
        (perform_location_detection "Pacific Northwest based engineer"
          [RawLocation.mk "Pacific" "loc" 0]).privacy_risk := rfl
  refine ⟨hdet, hrisk, ?_, by decide, by decide⟩
  rw [hpen, hdet, hrisk]
  simp +decide [calculate_location_penalty]

/-- **C2 (amended).** A mention whose type is `gpe`, `city` or `state`
(the city/region types the code exempts — spaCy `LOC` mentions are *not*
exempted) and whose offset is below 200 is never counted toward privacy
risk: the filtered problematic set contains no such mention, and adding
such a mention to the detector output leaves the entire detection result
(set, risk, penalty) unchanged. -/
theorem location_contact_header_spec (text : String)
    (all_locations : List RawLocation) (m : RawLocation)
    (htype : m.type = "gpe" ∨ m.type = "city" ∨ m.type = "state")
    (hstart : m.start < 200) :
    (∀ l ∈ (perform_location_detection text all_locations).detected_locations,
      ¬(l.start < 200 ∧ (l.type = "gpe" ∨ l.type = "city" ∨ l.type = "state"))) ∧
    perform_location_detection text (all_locations ++ [m]) =
      perform_location_detection text all_locations := by
  have hacc : ∀ (t ty : String) (st : Nat), st < 200 →
      (ty = "gpe" ∨ ty = "city" ∨ ty = "state") →
      is_acceptable_location t ty (determine_section text st) = true := by
    intro t ty st hst hty
    have hsec : determine_section text st = "contact_header" := by
      unfold determine_section
      rw [if_pos hst]
    rw [hsec]
    rcases hty with h | h | h <;> subst h <;> rfl
  constructor
  · intro l hl
    rintro ⟨hl200, hlty⟩
    unfold perform_location_detection at hl
    have hmem := List.mem_filter.mp hl
    obtain ⟨hsec, hbad⟩ := hmem
    obtain ⟨raw, _, hraw⟩ := List.mem_map.mp hsec
    have hctx : l.sectionCtx = determine_section text l.start := by
      rw [← hraw]
    rw [Bool.not_eq_eq_eq_not, Bool.not_true] at hbad
    have := hacc l.text l.type l.start hl200 hlty
    rw [← hctx] at this
    rw [this] at hbad
    cases hbad
  · unfold perform_location_detection
    have hfilter :
        ((all_locations ++ [m]).map (fun l =>
            DetectedLocation.mk l.text l.type l.start (determine_section text l.start))).filter
          (fun l => !(is_acceptable_location l.text l.type l.sectionCtx)) =
        (all_locations.map (fun l =>
            DetectedLocation.mk l.text l.type l.start (determine_section text l.start))).filter
          (fun l => !(is_acceptable_location l.text l.type l.sectionCtx)) := by
      rw [List.map_append, List.filter_append]
      have : ([m].map (fun l =>
          DetectedLocation.mk l.text l.type l.start (determine_section text l.start))).filter
          (fun l => !(is_acceptable_location l.text l.type l.sectionCtx)) = [] := by
        simp only [List.map_cons, List.map_nil, List.filter]
        rw [hacc m.text m.type m.start hstart htype]
        rfl
      rw [this, List.append_nil]
    simp only [hfilter]

/-- Witness for `location_contact_header_spec`: adding the contact-header
mention "Seattle" (`gpe`, offset 0) to a detector output containing a street
address does not change the detection result. -/
theorem location_contact_header_spec_witness :
    perform_location_detection "Seattle based engineer"
        ([RawLocation.mk "123 Main Street" "address" 250] ++
          [RawLocation.mk "Seattle" "gpe" 0]) =
      perform_location_detection "Seattle based engineer"
        [RawLocation.mk "123 Main Street" "address" 250] :=
  (location_contact_header_spec "Seattle based engineer"
    [RawLocation.mk "123 Main Street" "address" 250]
    (RawLocation.mk "Seattle" "gpe" 0) (Or.inl rfl) (by decide)).2

/-- **C5.** Over any filtered mention list, with the risk derived by
`assess_privacy_risk` and the penalty by `calculate_location_penalty` from
that risk (as composed in `_perform_location_detection`): the risk is
`high` whenever an address or zip mention is present; the penalty lies in
`[0,5]`; and it follows the table — address and zip ⇒ 5, either alone ⇒ 4,
`medium` ⇒ 3, `low` ⇒ 2, `none` ⇒ 0. -/
theorem assess_risk_penalty_spec (locations : List DetectedLocation) :
    ((∃ l ∈ locations, l.type = "address" ∨ l.type = "zip") →
      assess_privacy_risk locations = "high") ∧
    (0 ≤ calculate_location_penalty locations (assess_privacy_risk locations) ∧
      calculate_location_penalty locations (assess_privacy_risk locations) ≤ 5) ∧
    ((locations.any (fun l => l.type == "address")) = true ∧
        (locations.any (fun l => l.type == "zip")) = true →
      calculate_location_penalty locations (assess_privacy_risk locations) = 5) ∧
    ((locations.any (fun l => l.type == "address") ≠
        locations.any (fun l => l.type == "zip")) →
      calculate_location_penalty locations (assess_privacy_risk locations) = 4) ∧
    (assess_privacy_risk locations = "medium" →
      calculate_location_penalty locations (assess_privacy_risk locations) = 3) ∧
    (assess_privacy_risk locations = "low" →
      calculate_location_penalty locations (assess_privacy_risk locations) = 2) ∧
    (assess_privacy_risk locations = "none" →
      calculate_location_penalty locations (assess_privacy_risk locations) = 0) := by
  by_cases hnil : locations = []
  · subst hnil
    have hrisk : assess_privacy_risk [] = "none" := rfl
    have hpen : calculate_location_penalty [] (assess_privacy_risk []) = 0 := by
      rw [hrisk]
      simp +decide [calculate_location_penalty]
    have hbounds : 0 ≤ calculate_location_penalty [] (assess_privacy_risk []) ∧
        calculate_location_penalty [] (assess_privacy_risk []) ≤ 5 := by
      rw [hpen]
      norm_num
    have hempty : ∀ t : String, ¬(∃ l ∈ ([] : List DetectedLocation),
        l.type = "address" ∨ l.type = t) := by
      rintro t ⟨l, hl, -⟩
      cases hl
    refine ⟨fun h => absurd h (hempty "zip"), hbounds, by simp, by simp,
      ?_, ?_, fun _ => hpen⟩ <;>
      exact fun h => absurd (hrisk ▸ h) (by decide)
  · have hex : (∃ l ∈ locations, l.type = "address" ∨ l.type = "zip") ↔
        (locations.any (fun l => l.type == "address") ||
          locations.any (fun l => l.type == "zip")) = true := by
      rw [Bool.or_eq_true, List.any_eq_true, List.any_eq_true]
      constructor
      · rintro ⟨l, hl, h | h⟩
        · exact Or.inl ⟨l, hl, by simp [h]⟩
        · exact Or.inr ⟨l, hl, by simp [h]⟩
      · rintro (⟨l, hl, h⟩ | ⟨l, hl, h⟩)
        · exact ⟨l, hl, Or.inl (by simpa using h)⟩
        · exact ⟨l, hl, Or.inr (by simpa using h)⟩
    cases hA : locations.any (fun l => l.type == "address") <;>
      cases hZ : locations.any (fun l => l.type == "zip")
    · -- no address, no zip
      by_cases hlen : locations.length > 3
      · have hrisk : assess_privacy_risk locations = "medium" := by
          simp +decide [assess_privacy_risk, hnil, hA, hZ, hlen]
        have hpen : calculate_location_penalty locations
            (assess_privacy_risk locations) = 3 := by
          rw [hrisk]
          simp +decide [calculate_location_penalty, hA, hZ]
        refine ⟨fun h => ?_, by rw [hpen]; norm_num, by simp [hA],
          fun h => ?_, fun _ => hpen, fun h => ?_, fun h => ?_⟩
        · rw [hex, hA, hZ] at h
          exact absurd h (by decide)
        · exact absurd rfl h
        · rw [hrisk] at h
          exact absurd h (by decide)
        · rw [hrisk] at h
          exact absurd h (by decide)
      · have hrisk : assess_privacy_risk locations = "low" := by
          simp +decide [assess_privacy_risk, hnil, hA, hZ, hlen]
        have hpen : calculate_location_penalty locations
            (assess_privacy_risk locations) = 2 := by
          rw [hrisk]
          simp +decide [calculate_location_penalty, hA, hZ]
        refine ⟨fun h => ?_, by rw [hpen]; norm_num, by simp [hA],
          fun h => ?_, fun h => ?_, fun _ => hpen, fun h => ?_⟩
        · rw [hex, hA, hZ] at h
          exact absurd h (by decide)
        · exact absurd rfl h
        · rw [hrisk] at h
          exact absurd h (by decide)
        · rw [hrisk] at h
          exact absurd h (by decide)
    · -- zip only
      have hrisk : assess_privacy_risk locations = "high" := by
        simp +decide [assess_privacy_risk, hnil, hA, hZ]
      have hpen : calculate_location_penalty locations
          (assess_privacy_risk locations) = 4 := by
        rw [hrisk]
        simp +decide [calculate_location_penalty, hA, hZ]
      refine ⟨fun _ => hrisk, by rw [hpen]; norm_num, by simp [hA],
        fun _ => hpen, fun h => ?_, fun h => ?_, fun h => ?_⟩ <;>
        (rw [hrisk] at h; exact absurd h (by decide))
    · -- address only
      have hrisk : assess_privacy_risk locations = "high" := by
        simp +decide [assess_privacy_risk, hnil, hA, hZ]
      have hpen : calculate_location_penalty locations
          (assess_privacy_risk locations) = 4 := by
        rw [hrisk]
        simp +decide [calculate_location_penalty, hA, hZ]
      refine ⟨fun _ => hrisk, by rw [hpen]; norm_num, by simp [hZ],
        fun _ => hpen, fun h => ?_, fun h => ?_, fun h => ?_⟩ <;>
        (rw [hrisk] at h; exact absurd h (by decide))
    · -- both address and zip
      have hrisk : assess_privacy_risk locations = "high" := by
        simp +decide [assess_privacy_risk, hnil, hA, hZ]
      have hpen : calculate_location_penalty locations
          (assess_privacy_risk locations) = 5 := by
        rw [hrisk]
        simp +decide [calculate_location_penalty, hA, hZ]
      refine ⟨fun _ => hrisk, by rw [hpen]; norm_num, fun _ => hpen,
        fun h => ?_, fun h => ?_, fun h => ?_, fun h => ?_⟩
      · exact absurd rfl h
      · rw [hrisk] at h
        exact absurd h (by decide)
      · rw [hrisk] at h
        exact absurd h (by decide)
      · rw [hrisk] at h
        exact absurd h (by decide)

/-- Witness for `assess_risk_penalty_spec`: one street-address mention alone
gives risk `high` and penalty 4. -/
theorem assess_risk_penalty_spec_witness :
    assess_privacy_risk [DetectedLocation.mk "123 Main Street" "address" 0 "other"] = "high" ∧
    calculate_location_penalty [DetectedLocation.mk "123 Main Street" "address" 0 "other"]
      (assess_privacy_risk [DetectedLocation.mk "123 Main Street" "address" 0 "other"]) = 4 := by
  obtain ⟨h1, -, -, h4, -, -, -⟩ :=
    assess_risk_penalty_spec [DetectedLocation.mk "123 Main Street" "address" 0 "other"]
  exact ⟨h1 ⟨_, List.mem_singleton.mpr rfl, Or.inl rfl⟩, h4 (by decide)⟩

/-! ## Scoring engine (`utils/scorer.py`)

The five component scores, `apply_penalties_and_bonuses` and
`_compute_overall_score`. The three regex-derived counts over the raw text
(`bullet_count`, `achievement_count`, `special_char_count`) are taken as
`Nat` arguments standing for the number of matches the source's regex scans
produce; every threshold decision made on them is modelled exactly.
Interpretation strings (`generate_score_interpretation`,
`generate_score_breakdown_messages`) are pure display text and are not
modelled. Python `round(x, 1)` is modelled by `pyRound1` (round half to
even at one decimal). -/

/-- The extracted sections dictionary (all five keys always present, empty
string when a section is absent). -/
structure Sections where
  summary : String
  experience : String
  education : String
  skills : String
  projects : String
deriving DecidableEq

/-- Grammar-checker results, as consumed by the scorer
(`penalty_applied`, `total_errors`) plus the remaining keys of
`error_handler.get_default_grammar_results`. -/
structure GrammarResults where
  total_errors : Nat
  critical_errors : List String
  moderate_errors : List String
  minor_errors : List String
  grammar_score : ℚ
  penalty_applied : ℚ
  error_free_percentage : ℚ
  component_status : Option String := none
  note : Option String := none
deriving DecidableEq

/-- `calculate_formatting_score` (0-20): section presence, bullet usage
(`bullet_count` = number of lines matching the bullet regexes), structure. -/
def calculate_formatting_score (sections : Sections) (bullet_count : Nat) : ℚ :=
  let score : ℚ :=
    (if sections.experience ≠ "" ∧ sections.experience.length > 50 then 3 else 0) +
    (if sections.education ≠ "" ∧ sections.education.length > 20 then 2 else 0) +
    (if sections.skills ≠ "" ∧ sections.skills.length > 10 then 2 else 0) +
    (if sections.summary ≠ "" ∧ sections.summary.length > 30 then (1.5 : ℚ) else 0) +
    (if sections.projects ≠ "" ∧ sections.projects.length > 30 then (1.5 : ℚ) else 0)
  let score := score +
    (if bullet_count ≥ 15 then 5 else if bullet_count ≥ 10 then 4
     else if bullet_count ≥ 5 then 3 else if bullet_count ≥ 3 then 2
     else if bullet_count ≥ 1 then 1 else 0)
  let section_headers_found : Nat :=
    (if sections.experience ≠ "" then 1 else 0) +
    (if sections.education ≠ "" then 1 else 0) +
    (if sections.skills ≠ "" then 1 else 0) +
    (if sections.summary ≠ "" then 1 else 0) +
    (if sections.projects ≠ "" then 1 else 0)
  let score := score +
    (if section_headers_found ≥ 4 then 5 else if section_headers_found ≥ 3 then 4
     else if section_headers_found ≥ 2 then 3 else if section_headers_found ≥ 1 then 2
     else 0)
  min 20 (max 0 score)

/-- `calculate_keywords_score` (0-25): keyword-count tier, skill-count tier,
and a JD-overlap bonus (or a flat 3-point bonus without a JD). Note the
overlap ratio here is `|resume_set ∩ jd_set| / |jd_set|` over the *distinct*
lowered keyword sets (unlike the JD comparator's ratio over the JD list). -/
def calculate_keywords_score (resume_keywords skills : List String)
    (jd_keywords : Option (List String)) : ℚ :=
  let keyword_count := resume_keywords.length
  let score : ℚ :=
    (if keyword_count ≥ 20 then 10 else if keyword_count ≥ 15 then 8
     else if keyword_count ≥ 10 then 6 else if keyword_count ≥ 5 then 4
     else if keyword_count ≥ 3 then 2 else 0)
  let skills_count := skills.length
  let score := score +
    (if skills_count ≥ 15 then 10 else if skills_count ≥ 10 then 8
     else if skills_count ≥ 7 then 6 else if skills_count ≥ 5 then 4
     else if skills_count ≥ 3 then 2 else 0)
  let score :=
    if jd_keywords.getD [] ≠ [] then
      let resume_kw_set := lowerSet resume_keywords
      let jd_kw_set := lowerSet (jd_keywords.getD [])
      let overlap := (jd_kw_set.filter (fun kw => resume_kw_set.contains kw)).length
      let match_percentage : ℚ := (overlap : ℚ) / (jd_kw_set.length : ℚ)
      score +
        (if match_percentage ≥ 0.7 then 5 else if match_percentage ≥ 0.5 then 4
         else if match_percentage ≥ 0.3 then 3 else if match_percentage ≥ 0.2 then 2
         else if match_percentage ≥ 0.1 then 1 else 0)
    else
      score + (if keyword_count ≥ 10 then 3 else 0)
  min 25 (max 0 score)

/-- `calculate_content_score` (0-25): action-verb tier, quantified
achievements tier (`achievement_count` = total regex matches of the five
achievement patterns), and the grammar term `max(0, 10 − penalty/2)`. -/
def calculate_content_score (action_verbs : List String)
    (achievement_count : Nat) (grammar_results : GrammarResults) : ℚ :=
  let action_verb_count := action_verbs.length
  let score : ℚ :=
    (if action_verb_count ≥ 15 then 10 else if action_verb_count ≥ 10 then 8
     else if action_verb_count ≥ 7 then 6 else if action_verb_count ≥ 5 then 4
     else if action_verb_count ≥ 3 then 2 else 0)
  let score := score +
    (if achievement_count ≥ 10 then 5 else if achievement_count ≥ 7 then 4
     else if achievement_count ≥ 5 then 3 else if achievement_count ≥ 3 then 2
     else if achievement_count ≥ 1 then 1 else 0)
  let grammar_penalty := grammar_results.penalty_applied
  let grammar_score := max 0 (10 - grammar_penalty / 2)
  let score := score + grammar_score
  min 25 (max 0 score)

/-- `calculate_skill_validation_score` (0-15): the validator's
`validation_score`, re-clamped. -/
def calculate_skill_validation_score
    (validation_results : SkillValidationResult) : ℚ :=
  min 15 (max 0 validation_results.validation_score)

/-- `calculate_ats_compatibility_score` (0-15): starts at 15, subtracts the
location penalty, the special-glyph tier (`special_char_count` = number of
box-drawing glyphs found) and the short-core-sections tier, adds the
1-point clean-structure bonus. -/
def calculate_ats_compatibility_score (special_char_count : Nat)
    (location_results : LocationDetectionResult) (sections : Sections) : ℚ :=
  let score : ℚ := 15
  let score := score - location_results.penalty_applied
  let score := score -
    (if special_char_count > 20 then 2 else if special_char_count > 10 then 1 else 0)
  let short_sections : Nat :=
    (if sections.experience ≠ "" ∧ sections.experience.length < 20 then 1 else 0) +
    (if sections.education ≠ "" ∧ sections.education.length < 20 then 1 else 0) +
    (if sections.skills ≠ "" ∧ sections.skills.length < 20 then 1 else 0)
  let score := score -
    (if short_sections ≥ 2 then 2 else if short_sections ≥ 1 then 1 else 0)
  let score := score +
    (if sections.experience.length > 100 ∧ sections.skills.length > 20 then 1 else 0)
  min 15 (max 0 score)

/-- The penalties ledger (keys present only when the penalty is positive). -/
structure Penalties where
  grammar : Option ℚ := none
  location_privacy : Option ℚ := none
deriving DecidableEq

/-- The bonuses ledger (keys present only when the bonus was awarded). -/
structure Bonuses where
  excellent_skill_validation : Option ℚ := none
  good_skill_validation : Option ℚ := none
  perfect_grammar : Option ℚ := none
deriving DecidableEq

/-- `apply_penalties_and_bonuses`: records the (already embedded) grammar
and location penalties, adds the skill-validation bonus (+2 at ≥ 0.9, else
+1 at ≥ 0.8) and the perfect-grammar bonus (+2 at zero errors), clamps to
`[0, 100]`. Returns `(adjusted_score, penalties, bonuses)`. -/
def apply_penalties_and_bonuses (base_score : ℚ) (grammar_results : GrammarResults)
    (location_results : LocationDetectionResult)
    (skill_validation_results : SkillValidationResult) :
    ℚ × Penalties × Bonuses :=
  let penalties : Penalties :=
    { grammar :=
        if grammar_results.penalty_applied > 0
        then some grammar_results.penalty_applied else none,
      location_privacy :=
        if location_results.penalty_applied > 0
        then some location_results.penalty_applied else none }
  let validation_percentage := skill_validation_results.validation_percentage
  let bonusState : Bonuses × ℚ :=
    if validation_percentage ≥ 0.9 then
      ({ excellent_skill_validation := some 2 }, base_score + 2)
    else if validation_percentage ≥ 0.8 then
      ({ good_skill_validation := some 1 }, base_score + 1)
    else ({}, base_score)
  let bonusState : Bonuses × ℚ :=
    if grammar_results.total_errors = 0 then
      ({ bonusState.1 with perfect_grammar := some 2 }, bonusState.2 + 2)
    else bonusState
  (min 100 (max 0 bonusState.2), penalties, bonusState.1)

/-- Round half to even at one decimal digit (model of Python `round(x, 1)`
on exact decimals). -/
def pyRound1 (q : ℚ) : ℚ :=
  let x := q * 10
  let f : ℤ := ⌊x⌋
  let r : ℤ := if x - (f : ℚ) = 1/2 then (if f % 2 = 0 then f else f + 1) else round x
  (r : ℚ) / 10

/-- The score dictionary produced by `_compute_overall_score`
(interpretation strings omitted). -/
structure ScoreResult where
  overall_score : ℚ
  formatting_score : ℚ
  keywords_score : ℚ
  content_score : ℚ
  skill_validation_score : ℚ
  ats_compatibility_score : ℚ
  penalties : Penalties
  bonuses : Bonuses
deriving DecidableEq

/-- `_compute_overall_score`: the five component scores, their sum as base
score, penalties/bonuses application, rounding to one decimal. -/
def compute_overall_score (sections : Sections)
    (skills keywords action_verbs : List String)
    (bullet_count achievement_count special_char_count : Nat)
    (skill_validation_results : SkillValidationResult)
    (grammar_results : GrammarResults)
    (location_results : LocationDetectionResult)
    (jd_keywords : Option (List String)) : ScoreResult :=
  let formatting_score := calculate_formatting_score sections bullet_count
  let keywords_score := calculate_keywords_score keywords skills jd_keywords
  let content_score := calculate_content_score action_verbs achievement_count grammar_results
  let skill_validation_score := calculate_skill_validation_score skill_validation_results
  let ats_compatibility_score :=
    calculate_ats_compatibility_score special_char_count location_results sections
  let base_score := formatting_score + keywords_score + content_score +
    skill_validation_score + ats_compatibility_score
  let r := apply_penalties_and_bonuses base_score grammar_results
    location_results skill_validation_results
  { overall_score := pyRound1 r.1,
    formatting_score := pyRound1 formatting_score,
    keywords_score := pyRound1 keywords_score,
    content_score := pyRound1 content_score,
    skill_validation_score := pyRound1 skill_validation_score,
    ats_compatibility_score := pyRound1 ats_compatibility_score,
    penalties := r.2.1,
    bonuses := r.2.2 }

/-- **C6.** The overall score is `round1(clamp(sum of the five component
scores + bonuses, 0, 100))` where the only bonuses are +2 for
skill-validation percentage ≥ 0.9 or else +1 for ≥ 0.8 (mutually exclusive,
higher tier wins) and +2 for exactly zero grammar errors; the grammar and
location penalties are recorded in the penalties ledger but never appear in
the aggregation formula (they are only applied inside the content and
ATS-compatibility component scores). -/
theorem compute_overall_score_spec (sections : Sections)
    (skills keywords action_verbs : List String)
    (bullet_count achievement_count special_char_count : Nat)
    (sv : SkillValidationResult) (g : GrammarResults)
    (loc : LocationDetectionResult) (jd_keywords : Option (List String)) :
    (compute_overall_score sections skills keywords action_verbs bullet_count
        achievement_count special_char_count sv g loc jd_keywords).overall_score =
      pyRound1 (min 100 (max 0
        (calculate_formatting_score sections bullet_count +
         calculate_keywords_score keywords skills jd_keywords +
         calculate_content_score action_verbs achievement_count g +
         calculate_skill_validation_score sv +
         calculate_ats_compatibility_score special_char_count loc sections +
         (if sv.validation_percentage ≥ 0.9 then 2
          else if sv.validation_percentage ≥ 0.8 then 1 else 0) +
         (if g.total_errors = 0 then 2 else 0)))) ∧
    (compute_overall_score sections skills keywords action_verbs bullet_count
        achievement_count special_char_count sv g loc jd_keywords).bonuses =
      { excellent_skill_validation :=
          if sv.validation_percentage ≥ 0.9 then some 2 else none,
        good_skill_validation :=
          if sv.validation_percentage ≥ 0.9 then none
          else if sv.validation_percentage ≥ 0.8 then some 1 else none,
        perfect_grammar := if g.total_errors = 0 then some 2 else none } ∧
    (compute_overall_score sections skills keywords action_verbs bullet_count
        achievement_count special_char_count sv g loc jd_keywords).penalties =
      { grammar := if g.penalty_applied > 0 then some g.penalty_applied else none,
        location_privacy :=
          if loc.penalty_applied > 0 then some loc.penalty_applied else none } := by
  simp only [compute_overall_score, apply_penalties_and_bonuses]
  split_ifs <;> dsimp only <;> norm_num

/-! ## Progress indicator (`utils/progress_indicator.py`)

`PROCESSING_STAGES`, `initialize_progress` and `update_progress`. The
Streamlit session state is modelled as an explicit `ProgressState` record
threaded through `update_progress`. -/

/-- One entry of `PROCESSING_STAGES`. -/
structure Stage where
  name : String
  emoji : String
  start_percent : ℚ
  end_percent : ℚ
  description : String
deriving DecidableEq

/-- The 8 fixed processing stages with their `[start, end)` percent ranges. -/
def PROCESSING_STAGES : List Stage :=
  [⟨"File Validation", "🔍", 0, 10, "Validating file type and size"⟩,
   ⟨"Text Extraction", "📄", 10, 25, "Extracting text from document"⟩,
   ⟨"NLP Processing", "🧠", 25, 45, "Analyzing resume structure and content"⟩,
   ⟨"Skill Validation", "✅", 45, 60, "Validating skills against projects"⟩,
   ⟨"Experience Analysis", "💼", 60, 75, "Analyzing experience section quality"⟩,
   ⟨"Location Detection", "📍", 75, 85, "Detecting privacy-sensitive information"⟩,
   ⟨"Score Calculation", "🎯", 85, 95, "Calculating ATS compatibility scores"⟩,
   ⟨"Generating Results", "✨", 95, 100, "Preparing recommendations and feedback"⟩]

/-- The progress-related session state
(`progress_percent`, `progress_stage`, `progress_stage_index`). -/
structure ProgressState where
  progress_percent : ℚ
  progress_stage : Option Stage
  progress_stage_index : Int
deriving DecidableEq

/-- `initialize_progress`: reset to 0%, no stage, index −1. -/
def initialize_progress : ProgressState := ⟨0, none, -1⟩

/-- The stage-lookup loop of `update_progress`: first stage whose `name`
equals `stage_name`, with its index. -/
def findStage (stage_name : String) : List Stage → Nat → Option (Nat × Stage)
  | [], _ => none
  | stage :: rest, idx =>
    if stage.name = stage_name then some (idx, stage)
    else findStage stage_name rest (idx + 1)

/-- `update_progress`: no-op for an unknown stage name; otherwise clamp the
requested percent to the stage range (or use the stage start), never let the
stored percent decrease, and record the stage and its index. -/
def update_progress (st : ProgressState) (stage_name : String)
    (percent : Option ℚ) : ProgressState :=
  match findStage stage_name PROCESSING_STAGES 0 with
  | none => st
  | some (stage_index, stage_info) =>
    let target_percent :=
      match percent with
      | some p => max stage_info.start_percent (min p stage_info.end_percent)
      | none => stage_info.start_percent
    let target_percent :=
      if target_percent < st.progress_percent then st.progress_percent
      else target_percent
    { progress_percent := target_percent,
      progress_stage := some stage_info,
      progress_stage_index := (stage_index : Int) }

/-- **C9.** Progress monotonicity: no call to `update_progress` — whatever
stage name and whatever (possibly out-of-range or stale) percent argument it
is given — ever moves the stored progress percent below its previous
value. -/
theorem update_progress_monotone (st : ProgressState) (stage_name : String)
    (percent : Option ℚ) :
    st.progress_percent ≤ (update_progress st stage_name percent).progress_percent := by
  unfold update_progress
  cases findStage stage_name PROCESSING_STAGES 0 with
  | none => exact le_refl _
  | some p =>
    obtain ⟨stage_index, stage_info⟩ := p
    dsimp only
    split
    · exact le_refl _
    · rename_i hlt
      exact le_of_not_lt hlt

/-- **C10.** Frame property: calling `update_progress` with a name that is
not among the 8 fixed stage names leaves the whole progress state (percent,
stage, stage index) unchanged. -/
theorem update_progress_unknown_stage (st : ProgressState) (stage_name : String)
    (percent : Option ℚ)
    (h : stage_name ∉ PROCESSING_STAGES.map Stage.name) :
    update_progress st stage_name percent = st := by
  have hfind : ∀ (stages : List Stage) (idx : Nat),
      stage_name ∉ stages.map Stage.name →
      findStage stage_name stages idx = none := by
    intro stages
    induction stages with
    | nil => intro idx _; rfl
    | cons stage rest ih =>
      intro idx hnot
      rw [List.map_cons, List.mem_cons] at hnot
      push_neg at hnot
      unfold findStage
      rw [if_neg (fun he => hnot.1 he.symm)]
      exact ih _ hnot.2
  unfold update_progress
  rw [hfind PROCESSING_STAGES 0 h]

/-- Witness for `update_progress_unknown_stage`: an unknown stage name is a
no-op on a mid-analysis state. -/
theorem update_progress_unknown_stage_witness :
    update_progress ⟨40, none, 2⟩ "Coffee Break" (some 99) = ⟨40, none, 2⟩ :=
  update_progress_unknown_stage ⟨40, none, 2⟩ "Coffee Break" (some 99) (by decide)

/-! ## Pipeline orchestrator (`run_analysis` in `pages/1_ATS_Scorer.py`)

The staged control flow of `run_analysis` with its fatal/degradable policy.
Each stage's outcome is an oracle `Except String _` value: fatal stages
(file read/parse, model loading, NLP processing, scoring) abort with
`success = false` and an error message; degradable stages (skill
validation, experience analysis, location detection, JD comparison) are
caught, replaced by the documented defaults from `utils/error_handler.py`,
and recorded as `degraded` in `component_status`. -/

/-- `error_handler.get_default_skill_validation_results`. -/
def get_default_skill_validation_results : SkillValidationResult :=
  { validated_skills := [], unvalidated_skills := [], validation_percentage := 0,
    skill_project_mapping := [], validation_score := 0,
    component_status := some "unavailable",
    note := some "Skill validation was unavailable. Results may be incomplete." }

/-- `error_handler.get_default_location_results`. -/
def get_default_location_results : LocationDetectionResult :=
  { location_found := false, detected_locations := [], privacy_risk := "unknown",
    penalty_applied := 0, component_status := some "unavailable",
    note := some "Location detection was unavailable. Results may be incomplete." }

/-- `error_handler.get_default_grammar_results`. -/
def get_default_grammar_results : GrammarResults :=
  { total_errors := 0, critical_errors := [], moderate_errors := [],
    minor_errors := [], grammar_score := 100, penalty_applied := 0,
    error_free_percentage := 100, component_status := some "unavailable",
    note := some "Grammar checking was unavailable. Results may be incomplete." }

/-- The output record of `text_processor.process_resume_text`. -/
structure ProcessedData where
  sections : Sections
  skills : List String
  projects : List Project
  keywords : List String
  action_verbs : List String
deriving DecidableEq

/-- Experience-analysis result (only the fields the claims need). -/
structure ExperienceResults where
  score : ℚ
  max_score : ℚ
deriving DecidableEq

/-- JD comparison result record. -/
structure JDComparisonResult where
  semantic_similarity : ℚ
  matched_keywords : List String
  missing_keywords : List String
  skills_gap : List String
  match_percentage : ℚ
deriving DecidableEq

/-- The oracle outcomes of the pipeline stages: `.ok` is a normal return of
the stage call, `.error` an exception raised by it. -/
structure StageOutcomes where
  fileRead : Except String Unit
  parseResume : Except String String
  loadSpacyModel : Except String Unit
  loadEmbedder : Except String Unit
  processResumeText : Except String ProcessedData
  skillValidation : Except String SkillValidationResult
  experienceAnalysis : Except String ExperienceResults
  locationDetection : Except String LocationDetectionResult
  jdComparison : Except String JDComparisonResult
  scoring : Except String ScoreResult

/-- The results dictionary of `run_analysis` (feedback-list fields, which
never affect success, omitted). -/
structure AnalysisResults where
  success : Bool
  error : Option String
  warnings : List String
  resume_text : Option String
  skill_validation : Option SkillValidationResult
  grammar_results : Option GrammarResults
  location_results : Option LocationDetectionResult
  scores : Option ScoreResult
  component_status : List (String × String)
deriving DecidableEq

/-- `run_analysis`: the staged pipeline. Fatal stages return immediately
with `success = false` and the exception message recorded as `error`
(message post-processing by the error handler is not modelled); degradable
stages substitute their defaults and continue. The JD branch runs only in
"Job Description Comparison" mode when JD text was resolved. -/
def run_analysis (analysis_mode : String) (jd_text_content : Option String)
    (o : StageOutcomes) : AnalysisResults :=
  let results : AnalysisResults :=
    { success := false, error := none, warnings := [], resume_text := none,
      skill_validation := none, grammar_results := none, location_results := none,
      scores := none, component_status := [] }
  match o.fileRead with
  | .error _ =>
    { results with
      error := some "Could not read the uploaded file. Please try uploading again." }
  | .ok _ =>
  match o.parseResume with
  | .error e => { results with error := some e }
  | .ok resume_text =>
  let results :=
    { results with
      resume_text := some resume_text,
      component_status := results.component_status ++ [("file_parsing", "success")] }
  match o.loadSpacyModel with
  | .error e => { results with error := some e }
  | .ok _ =>
  let results := { results with
    component_status := results.component_status ++ [("nlp_model", "success")] }
  match o.loadEmbedder with
  | .error e => { results with error := some e }
  | .ok _ =>
  let results := { results with
    component_status := results.component_status ++ [("embedder_model", "success")] }
  match o.processResumeText with
  | .error e => { results with error := some e }
  | .ok _processed =>
  let results := { results with
    component_status := results.component_status ++ [("nlp_processing", "success")] }
  let results :=
    match o.skillValidation with
    | .ok sv =>
      { results with
        skill_validation := some sv,
        component_status := results.component_status ++ [("skill_validation", "success")] }
    | .error _ =>
      { results with
        warnings := results.warnings ++
          ["Skill validation encountered an issue. Using default values."],
        skill_validation := some get_default_skill_validation_results,
        component_status := results.component_status ++ [("skill_validation", "degraded")] }
  let results :=
    match o.experienceAnalysis with
    | .ok _ => { results with
        component_status := results.component_status ++ [("experience_analysis", "success")] }
    | .error _ => { results with
        warnings := results.warnings ++
          ["Experience analysis encountered an issue. Using default values."],
        component_status := results.component_status ++ [("experience_analysis", "degraded")] }
  let results := { results with grammar_results := some get_default_grammar_results }
  let results :=
    match o.locationDetection with
    | .ok lr =>
      { results with
        location_results := some lr,
        component_status := results.component_status ++ [("location_detection", "success")] }
    | .error _ =>
      { results with
        warnings := results.warnings ++
          ["Location detection encountered an issue. Using default values."],
        location_results := some get_default_location_results,
        component_status := results.component_status ++ [("location_detection", "degraded")] }
  let results :=
    if analysis_mode = "Job Description Comparison" then
      match jd_text_content with
      | some _ =>
        match o.jdComparison with
        | .ok _ => { results with
            component_status := results.component_status ++ [("jd_comparison", "success")] }
        | .error _ => { results with
            warnings := results.warnings ++
              ["Job description comparison encountered an issue."],
            component_status := results.component_status ++ [("jd_comparison", "degraded")] }
      | none => results
    else results
  match o.scoring with
  | .error e => { results with error := some e }
  | .ok scores =>
    { results with
      scores := some scores,
      component_status := results.component_status ++ [("scoring", "success")],
      success := true }

/-- **C8.** If the skill-validation stage raises while every fatal stage
succeeds, the pipeline still completes with `success = true`, records
`component_status` for skill validation as `"degraded"`, and substitutes the
documented neutral default, whose `validation_score` is 0 with empty
validated/unvalidated partitions and `validation_percentage` 0.0. -/
theorem run_analysis_skill_validation_degraded (analysis_mode : String)
    (jd_text_content : Option String) (o : StageOutcomes) (e : String)
    (hsv : o.skillValidation = .error e)
    (h1 : ∃ v, o.fileRead = .ok v) (h2 : ∃ v, o.parseResume = .ok v)
    (h3 : ∃ v, o.loadSpacyModel = .ok v) (h4 : ∃ v, o.loadEmbedder = .ok v)
    (h5 : ∃ v, o.processResumeText = .ok v) (h6 : ∃ v, o.scoring = .ok v) :
    (run_analysis analysis_mode jd_text_content o).success = true ∧
    (run_analysis analysis_mode jd_text_content o).component_status.lookup
      "skill_validation" = some "degraded" ∧
    (run_analysis analysis_mode jd_text_content o).skill_validation =
      some get_default_skill_validation_results ∧
    get_default_skill_validation_results.validation_score = 0 ∧
    get_default_skill_validation_results.validated_skills = [] ∧
    get_default_skill_validation_results.unvalidated_skills = [] ∧
    get_default_skill_validation_results.validation_percentage = 0 := by
  obtain ⟨v1, h1⟩ := h1
  obtain ⟨v2, h2⟩ := h2
  obtain ⟨v3, h3⟩ := h3
  obtain ⟨v4, h4⟩ := h4
  obtain ⟨v5, h5⟩ := h5
  obtain ⟨v6, h6⟩ := h6
  unfold run_analysis
  rw [h1, h2, h3, h4, h5, h6, hsv]
  rcases o.experienceAnalysis with exv | exv <;>
    rcases o.locationDetection with lv | lv <;>
    by_cases hmode : analysis_mode = "Job Description Comparison" <;>
    rcases jd_text_content with _ | jdt <;>
    rcases o.jdComparison with jv | jv <;>
    simp +decide [hmode, List.lookup, get_default_skill_validation_results]

/-- Witness for `run_analysis_skill_validation_degraded` at a concrete
outcome assignment where only the skill validator raises. -/
theorem run_analysis_skill_validation_degraded_witness :
    (run_analysis "General ATS Score" none
      { fileRead := .ok (), parseResume := .ok "resume text",
        loadSpacyModel := .ok (), loadEmbedder := .ok (),
        processResumeText := .ok ⟨⟨"", "", "", "", ""⟩, [], [], [], []⟩,
        skillValidation := .error "embedder crashed",
        experienceAnalysis := .ok ⟨10, 20⟩,
        locationDetection := .ok ⟨false, [], "none", 0, none, none⟩,
        jdComparison := .ok ⟨0, [], [], [], 0⟩,
        scoring := .ok ⟨0, 0, 0, 0, 0, 0, {}, {}⟩ }).success = true ∧
    (run_analysis "General ATS Score" none
      { fileRead := .ok (), parseResume := .ok "resume text",
        loadSpacyModel := .ok (), loadEmbedder := .ok (),
        processResumeText := .ok ⟨⟨"", "", "", "", ""⟩, [], [], [], []⟩,
        skillValidation := .error "embedder crashed",
        experienceAnalysis := .ok ⟨10, 20⟩,
        locationDetection := .ok ⟨false, [], "none", 0, none, none⟩,
        jdComparison := .ok ⟨0, [], [], [], 0⟩,
        scoring := .ok ⟨0, 0, 0, 0, 0, 0, {}, {}⟩ }).component_status.lookup
      "skill_validation" = some "degraded" := by
  obtain ⟨hsucc, hstat, -⟩ := run_analysis_skill_validation_degraded
    "General ATS Score" none
    { fileRead := .ok (), parseResume := .ok "resume text",
      loadSpacyModel := .ok (), loadEmbedder := .ok (),
      processResumeText := .ok ⟨⟨"", "", "", "", ""⟩, [], [], [], []⟩,
      skillValidation := .error "embedder crashed",
      experienceAnalysis := .ok ⟨10, 20⟩,
      locationDetection := .ok ⟨false, [], "none", 0, none, none⟩,
      jdComparison := .ok ⟨0, [], [], [], 0⟩,
      scoring := .ok ⟨0, 0, 0, 0, 0, 0, {}, {}⟩ }
    "embedder crashed" rfl ⟨(), rfl⟩ ⟨"resume text", rfl⟩ ⟨(), rfl⟩ ⟨(), rfl⟩
    ⟨_, rfl⟩ ⟨_, rfl⟩
  exact ⟨hsucc, hstat⟩

end ATS
